import Mathlib

/-!
Shallow embedding of the KNNURA fraud-detection core (TypeScript sources:
the classifier and ip-reputation modules, `src/lib/fraud-config.ts`,
`src/lib/fraud/server/cache.ts`, `src/lib/fraud/types.ts`).

Modelling conventions:
- JavaScript `number` is modelled as `ℚ` (every JS float is a rational;
  all arithmetic performed by this code on the modelled paths is exact on
  the small integral values that occur, so no binary-float rounding can
  change a comparison or a `Math.round` result).
- `Math.round` is modelled as `fun x => Int.floor (x + 1/2)`, which is its
  exact semantics (round half toward positive infinity).
- Asynchronous external effects (manual-list lookups, the IP lookup fetch,
  the cache state at call time) are passed as explicit parameters.
- Wall-clock fields of the source (`timestamp`, `processingTime`,
  `lastAccessed` bookkeeping via `Date.now()`) are modelled by an explicit
  `now` parameter where they matter and omitted where they are pure
  observability metadata.
-/

namespace Knnura

-- ============================================================================
-- Data model (src/lib/fraud/types.ts)
-- ============================================================================

/-- Classification labels, `type Classification = 'GOOD' | 'WARN' | 'BAD'`. -/
inductive Classification where
  | GOOD
  | WARN
  | BAD
  deriving DecidableEq, Repr

/-- Device types, `type DeviceType = 'desktop' | 'mobile' | 'tablet' | 'bot' | 'unknown'`. -/
inductive DeviceType where
  | desktop
  | mobile
  | tablet
  | bot
  | unknown
  deriving DecidableEq, Repr

/-- `interface DeviceInfo` from types.ts. -/
structure DeviceInfo where
  type : DeviceType
  isMobile : Bool
  isTablet : Bool
  isDesktop : Bool
  isFakeMobile : Bool
  isAutomated : Bool
  isHeadless : Bool
  os : String
  osVersion : String
  browser : String
  browserVersion : String
  platform : String
  deriving Repr

/-- `interface ScreenInfo` from types.ts. -/
structure ScreenInfo where
  width : ℚ
  height : ℚ
  availWidth : ℚ
  availHeight : ℚ
  colorDepth : ℚ
  pixelRatio : ℚ
  deriving Repr

/-- `interface HardwareInfo` from types.ts. -/
structure HardwareInfo where
  cores : ℚ
  memory : Option ℚ
  maxTouchPoints : ℚ
  hasTouch : Bool
  deriving Repr

/-- `interface Fingerprint` from types.ts. -/
structure Fingerprint where
  device : DeviceInfo
  screen : ScreenInfo
  hardware : HardwareInfo
  userAgent : String
  language : String
  languages : List String
  timezone : String
  timezoneOffset : ℚ
  canvasHash : String
  webglVendor : String
  webglRenderer : String
  webglHash : String
  plugins : List String
  mimeTypes : List String
  doNotTrack : Option String
  cookiesEnabled : Bool
  collectedAt : ℚ
  deriving Repr

/-- `interface BehaviorData` from types.ts. -/
structure BehaviorData where
  mouseMovements : ℚ
  mouseClicks : ℚ
  mouseDistance : ℚ
  touchEvents : ℚ
  touchTaps : ℚ
  touchSwipes : ℚ
  scrollEvents : ℚ
  scrollDistance : ℚ
  keyPresses : ℚ
  activeTime : ℚ
  totalTime : ℚ
  lastEventTime : ℚ
  sessionId : String
  pageUrl : String
  deriving Repr

/-- `interface IpReputationResult` from types.ts. -/
structure IpReputationResult where
  ip : String
  isVpn : Bool
  isDatacenter : Bool
  isMobileCarrier : Bool
  isProxy : Bool
  isTor : Bool
  asn : Option ℤ
  org : String
  isp : String
  country : String
  countryCode : String
  region : String
  city : String
  cached : Bool
  cachedAt : Option ℚ
  deriving Repr

/-- The `details` field of `FraudResult` (types.ts `FraudDetails`, the fields the
classifier populates). -/
structure FraudDetails where
  ipReputation : Option IpReputationResult
  deviceType : Option DeviceType
  flags : List String
  deriving Repr

/-- `interface FraudResult` (classification, score, reason, details).
`timestamp` and `processingTime` are wall-clock observability metadata and are
not modelled. -/
structure FraudResult where
  classification : Classification
  score : ℚ
  reason : String
  details : FraudDetails
  deriving Repr

-- ============================================================================
-- Configuration (src/lib/fraud-config.ts)
-- ============================================================================

/-- A good/warn threshold pair as in `BEHAVIOR_THRESHOLDS`. -/
structure GoodWarn where
  good : ℚ
  warn : ℚ
  deriving Repr

/-- `BEHAVIOR_THRESHOLDS.desktop`. -/
structure DesktopThresholds where
  mouseMovements : GoodWarn
  scrollEventsGood : ℚ
  clickEventsGood : ℚ
  minimumActiveTime : ℚ
  deriving Repr

/-- `BEHAVIOR_THRESHOLDS.mobile`. -/
structure MobileThresholds where
  touchEvents : GoodWarn
  scrollEventsGood : ℚ
  tapEventsGood : ℚ
  minimumActiveTime : ℚ
  deriving Repr

/-- `BEHAVIOR_THRESHOLDS` record. -/
structure BehaviorThresholdsCfg where
  desktop : DesktopThresholds
  mobile : MobileThresholds
  deriving Repr

/-- `BEHAVIOR_THRESHOLDS` from fraud-config.ts: desktop mouse 40/20, mobile touch 7/3. -/
def BEHAVIOR_THRESHOLDS : BehaviorThresholdsCfg :=
  { desktop := { mouseMovements := { good := 40, warn := 20 },
                 scrollEventsGood := 3, clickEventsGood := 1, minimumActiveTime := 2000 },
    mobile := { touchEvents := { good := 7, warn := 3 },
                scrollEventsGood := 2, tapEventsGood := 1, minimumActiveTime := 1500 } }

/-- `SCORING_WEIGHTS` record shape. -/
structure ScoringWeights where
  ipReputation : ℚ
  deviceFingerprint : ℚ
  behavior : ℚ
  deriving Repr

/-- `SCORING_WEIGHTS` from fraud-config.ts: 60 / 30 / 10. -/
def SCORING_WEIGHTS : ScoringWeights :=
  { ipReputation := 60, deviceFingerprint := 30, behavior := 10 }

/-- `HIGH_RISK_BROWSERS` from fraud-config.ts. -/
def HIGH_RISK_BROWSERS : List String :=
  ["facebook", "facebook messenger", "opera mini"]

/-- `MOBILE_CARRIER_ASNS.india` from fraud-config.ts. -/
def MOBILE_CARRIER_ASNS_india : List ℤ :=
  [55836, 45609, 24560, 9498, 45514, 55410, 38266, 9829, 4755, 17747, 18101]

/-- `MOBILE_CARRIER_ASNS.usa` from fraud-config.ts. -/
def MOBILE_CARRIER_ASNS_usa : List ℤ :=
  [7018, 20115, 22394, 6167, 21928, 20057]

/-- `MOBILE_CARRIER_ASNS.other` from fraud-config.ts. -/
def MOBILE_CARRIER_ASNS_other : List ℤ :=
  [12576, 23455, 34984, 5384, 15802, 24218, 10091]

/-- `ALL_CARRIER_ASNS` (flattened carrier ASN set, modelled as a list; only
membership is used). -/
def ALL_CARRIER_ASNS : List ℤ :=
  MOBILE_CARRIER_ASNS_india ++ MOBILE_CARRIER_ASNS_usa ++ MOBILE_CARRIER_ASNS_other

/-- `VPN_KEYWORDS` from fraud-config.ts. -/
def VPN_KEYWORDS : List String :=
  ["vpn", "proxy", "tor", "tunnel", "anonymou", "private internet",
   "surfshark", "nordvpn", "expressvpn", "cyberghost", "purevpn",
   "ipvanish", "protonvpn", "mullvad", "windscribe", "hotspot shield",
   "hma", "hide.me", "privatevpn", "strongvpn", "torguard"]

/-- `DATACENTER_KEYWORDS` from fraud-config.ts. -/
def DATACENTER_KEYWORDS : List String :=
  ["amazon", "aws", "ec2", "cloudfront",
   "google", "gcp", "cloud",
   "microsoft", "azure",
   "digitalocean", "linode", "vultr", "hetzner",
   "ovh", "scaleway", "upcloud",
   "hosting", "server", "datacenter", "data center",
   "colocation", "colo", "dedicated",
   "cloudflare", "fastly", "akamai", "cdn",
   "rackspace", "godaddy", "bluehost", "hostinger",
   "vps", "virtual private", "virtual server"]

/-- `DATACENTER_ASNS` from fraud-config.ts (modelled as a list; only membership
is used). -/
def DATACENTER_ASNS : List ℤ :=
  [16509, 14618, 8987, 15169, 396982, 8075, 8068, 8069, 14061, 63949,
   20473, 16276, 24940, 13335]

-- ============================================================================
-- String helpers (semantics of the JS string operations used by the source)
-- ============================================================================

/-- Does the pattern occur at the start of the haystack (char-list level)? -/
def startsWithPat : List Char → List Char → Bool
  | [], _ => true
  | _ :: _, [] => false
  | p :: ps, c :: cs => (p = c) && startsWithPat ps cs

/-- Substring occurrence test on char lists; models JS `String.includes`. -/
def hasSubstring : List Char → List Char → Bool
  | [], pat => pat.isEmpty
  | c :: cs, pat => startsWithPat pat (c :: cs) || hasSubstring cs pat

/-- JS `s.includes(pat)`. -/
def strIncludes (s pat : String) : Bool :=
  hasSubstring s.data pat.data

/-- JS `s.toLowerCase()` restricted to ASCII case mapping (all keywords compared
against are ASCII). -/
def toLowerStr (s : String) : String :=
  String.mk (s.data.map Char.toLower)

/-- JS `String.split(sep)` for a one-character separator: `""` splits to `[""]`,
and a trailing separator yields a trailing empty part. -/
def splitOnChar (sep : Char) : List Char → List (List Char)
  | [] => [[]]
  | c :: cs =>
    let rest := splitOnChar sep cs
    if c = sep then
      [] :: rest
    else
      match rest with
      | [] => [[c]]
      | r :: rs => (c :: r) :: rs

/-- JS `parseInt(s, 10)` on a string that is a nonempty run of decimal digits. -/
def parseDecNat (p : List Char) : ℕ :=
  p.foldl (fun n c => n * 10 + (c.toNat - 48)) 0

/-- ASCII hex-digit test (the character class `[0-9a-fA-F]`). -/
def isHexDigitChar (c : Char) : Bool :=
  c.isDigit || (decide (97 ≤ c.toNat) && decide (c.toNat ≤ 102))
    || (decide (65 ≤ c.toNat) && decide (c.toNat ≤ 70))

-- ============================================================================
-- IP Reputation Service (ip-reputation module)
-- ============================================================================

/-- `isValidIp` from the ip-reputation module. The IPv4 regex
`(d{1,3}.){3}d{1,3}` anchored at both ends is equivalent to: splitting on the
dot gives exactly 4 parts, each a run of 1 to 3 decimal digits; the subsequent
`every` check then requires each octet value to be between 0 and 255. The
simplified IPv6 regex `([0-9a-fA-F]{0,4}:){2,7}[0-9a-fA-F]{0,4}` anchored at
both ends is equivalent to: splitting on the colon gives 3 to 8 parts, each a
run of 0 to 4 hex digits. -/
def isValidIp (ip : String) : Bool :=
  let parts := splitOnChar (Char.ofNat 46) ip.data
  if decide (parts.length = 4) &&
      parts.all (fun p => decide (1 ≤ p.length) && decide (p.length ≤ 3) && p.all Char.isDigit) then
    parts.all (fun octet =>
      let num := parseDecNat octet
      decide (0 ≤ num) && decide (num ≤ 255))
  else
    let groups := splitOnChar (Char.ofNat 58) ip.data
    decide (3 ≤ groups.length) && decide (groups.length ≤ 8) &&
      groups.all (fun g => decide (g.length ≤ 4) && g.all isHexDigitChar)

/-- `parseAsn` from the ip-reputation module: falsy (empty) input gives null;
otherwise the first maximal run of digits (the regex match for one-or-more
digits) parsed as an integer, or null if the string has no digit. -/
def parseAsn (asnString : String) : Option ℤ :=
  if asnString = "" then none
  else
    let l := asnString.data.dropWhile (fun c => !c.isDigit)
    match l with
    | [] => none
    | _ :: _ => some (parseDecNat (l.takeWhile Char.isDigit) : ℤ)

/-- The subset of the ipapi.co JSON response the parser reads
(`interface IpApiResponse`). -/
structure IpApiResponse where
  ip : String
  city : String
  region : String
  country : String
  country_code : String
  postal : String
  latitude : ℚ
  longitude : ℚ
  timezone : String
  utc_offset : String
  org : String
  asn : String
  error : Option Bool
  reason : Option String
  deriving Repr

/-- `parseIpApiResponse` from the ip-reputation module. -/
def parseIpApiResponse (data : IpApiResponse) : IpReputationResult :=
  let asnNumber := parseAsn data.asn
  let org := toLowerStr data.org
  let isMobileCarrier :=
    match asnNumber with
    | some n => ALL_CARRIER_ASNS.contains n
    | none => false
  let isDatacenterAsn :=
    match asnNumber with
    | some n => DATACENTER_ASNS.contains n
    | none => false
  let isVpn := VPN_KEYWORDS.any (fun keyword => strIncludes org keyword)
  let isDatacenterName := DATACENTER_KEYWORDS.any (fun keyword => strIncludes org keyword)
  { ip := data.ip
    isVpn := isVpn
    isDatacenter := isDatacenterAsn || isDatacenterName
    isMobileCarrier := isMobileCarrier
    isProxy := false
    isTor := strIncludes org "tor exit" || strIncludes org "tor project"
    asn := asnNumber
    org := data.org
    isp := data.org
    country := data.country
    countryCode := data.country_code
    region := data.region
    city := data.city
    cached := false
    cachedAt := none }

/-- `createUnknownResult` from the ip-reputation module (the logged reason
string does not affect the returned value). -/
def createUnknownResult (ip : String) : IpReputationResult :=
  { ip := ip
    isVpn := false
    isDatacenter := false
    isMobileCarrier := false
    isProxy := false
    isTor := false
    asn := none
    org := ""
    isp := ""
    country := ""
    countryCode := ""
    region := ""
    city := ""
    cached := false
    cachedAt := none }

/-- Outcome of the external `fetch` to ipapi.co, as observed by
`fetchIpReputation`: abort on timeout, a non-2xx HTTP status, a body that fails
JSON parsing, or a parsed body. -/
inductive FetchOutcome where
  | timeout
  | httpError (status : ℕ)
  | badJson
  | success (data : IpApiResponse)
  deriving Repr

/-- `fetchIpReputation` from the ip-reputation module: throws (models as
`Except.error`) on timeout, non-2xx, JSON parse failure, or an API body with
the `error` field set (using `reason` when truthy, else the fixed message);
otherwise returns the parsed reputation. -/
def fetchIpReputation (outcome : FetchOutcome) : Except String IpReputationResult :=
  match outcome with
  | .timeout => .error "AbortError"
  | .httpError status => .error ("HTTP " ++ toString status)
  | .badJson => .error "invalid json"
  | .success data =>
    if data.error.getD false then
      .error (match data.reason with
              | some r => if r = "" then "Unknown API error" else r
              | none => "Unknown API error")
    else
      .ok (parseIpApiResponse data)

/-- `checkIpReputation` from the ip-reputation module. The cache state at call
time is passed as the value `cache.get(ip)` would return (`cachedEntry`), and
the external fetch as its observed outcome. The `cache.set` side effect on
success does not alter the returned value and is not modelled here. The
enclosing try/catch converts every fetch error into the neutral unknown result,
so the function is total (never throws). -/
def checkIpReputation (ip : String) (cachedEntry : Option IpReputationResult)
    (outcome : FetchOutcome) : IpReputationResult :=
  if !isValidIp ip then
    createUnknownResult ip
  else
    match cachedEntry with
    | some cached => { cached with cached := true }
    | none =>
      match fetchIpReputation outcome with
      | .ok result => result
      | .error _ => createUnknownResult ip

-- ============================================================================
-- Manual overrides (ip-reputation module)
-- ============================================================================

/-- State of the two module-level JS `Set<string>` manual lists, modelled as
duplicate-free insertion-ordered lists (only membership is observed). -/
structure ManualLists where
  manualWhitelist : List String
  manualBlacklist : List String
  deriving Repr

/-- JS `Set.add`: no-op when the element is already present, else append. -/
def setAdd (l : List String) (x : String) : List String :=
  if l.contains x then l else l ++ [x]

/-- JS `Set.delete`: remove the element if present. -/
def setDelete (l : List String) (x : String) : List String :=
  l.filter (fun y => y != x)

/-- `addToWhitelist` from the ip-reputation module. -/
def addToWhitelist (st : ManualLists) (ip : String) : ManualLists :=
  { manualWhitelist := setAdd st.manualWhitelist ip
    manualBlacklist := setDelete st.manualBlacklist ip }

/-- `addToBlacklist` from the ip-reputation module. -/
def addToBlacklist (st : ManualLists) (ip : String) : ManualLists :=
  { manualWhitelist := setDelete st.manualWhitelist ip
    manualBlacklist := setAdd st.manualBlacklist ip }

/-- `isWhitelisted` from the ip-reputation module. -/
def isWhitelisted (st : ManualLists) (ip : String) : Bool :=
  st.manualWhitelist.contains ip

/-- `isBlacklisted` from the ip-reputation module. -/
def isBlacklisted (st : ManualLists) (ip : String) : Bool :=
  st.manualBlacklist.contains ip

-- ============================================================================
-- LRU cache (src/lib/fraud/server/cache.ts)
-- ============================================================================

/-- `interface CacheEntry<T>` from cache.ts. -/
structure CacheEntry (T : Type) where
  value : T
  expiresAt : ℚ
  lastAccessed : ℚ
  deriving Repr

/-- `class LRUCache<T>` state: the backing JS `Map` modelled as its
entry list in insertion order (duplicate-free by construction, since every
write deletes the key first), plus the configuration and the hit/miss stats.
`stats.size` is always `cache.length` and is not duplicated. -/
structure LRUCache (T : Type) where
  cache : List (String × CacheEntry T)
  maxSize : ℕ
  defaultTtlMs : ℚ
  hits : ℕ
  misses : ℕ
  deriving Repr

/-- JS `Map.get`. -/
def mapGet {T : Type} (entries : List (String × CacheEntry T)) (key : String) :
    Option (CacheEntry T) :=
  match entries.find? (fun e => e.1 == key) with
  | some e => some e.2
  | none => none

/-- JS `Map.delete` (removes the entry for the key, if any). -/
def mapDelete {T : Type} (entries : List (String × CacheEntry T)) (key : String) :
    List (String × CacheEntry T) :=
  entries.filter (fun e => e.1 != key)

/-- JS `Map.has`. -/
def mapHas {T : Type} (entries : List (String × CacheEntry T)) (key : String) : Bool :=
  (entries.find? (fun e => e.1 == key)).isSome

/-- The `LRUCache` constructor. -/
def LRUCache.mkCache (T : Type) (maxSize : ℕ) (defaultTtlMs : ℚ) : LRUCache T :=
  { cache := [], maxSize := maxSize, defaultTtlMs := defaultTtlMs, hits := 0, misses := 0 }

/-- `LRUCache.get`, with `Date.now()` passed as `now`: miss on absent key,
evicting miss on expired entry, and on a live hit the entry is re-inserted at
the most-recent position with a refreshed `lastAccessed`. Returns the JS return
value together with the updated cache state. -/
def LRUCache.get {T : Type} (c : LRUCache T) (key : String) (now : ℚ) :
    Option T × LRUCache T :=
  match mapGet c.cache key with
  | none => (none, { c with misses := c.misses + 1 })
  | some entry =>
    if now > entry.expiresAt then
      (none, { c with cache := mapDelete c.cache key, misses := c.misses + 1 })
    else
      let entry2 := { entry with lastAccessed := now }
      (some entry.value,
        { c with cache := mapDelete c.cache key ++ [(key, entry2)], hits := c.hits + 1 })

/-- `LRUCache.evictOldest`: reads the first key of the insertion-ordered map
and deletes it — but only when that key is truthy, i.e. the guard
`if (firstKey)` in the source skips the deletion when the oldest key is the
empty string (the only falsy string) or when the map is empty. -/
def LRUCache.evictOldest {T : Type} (c : LRUCache T) : LRUCache T :=
  match c.cache.head? with
  | none => c
  | some (firstKey, _) =>
    if firstKey = "" then c
    else { c with cache := mapDelete c.cache firstKey }

/-- `LRUCache.set`, with `Date.now()` passed as `now`: evict the oldest entry
when the map is at capacity and the key is new (raw `Map.has`, no expiry
check), then delete-and-append the key with `expiresAt = now + ttl`. -/
def LRUCache.set {T : Type} (c : LRUCache T) (key : String) (value : T)
    (ttlMs : Option ℚ) (now : ℚ) : LRUCache T :=
  let ttl := ttlMs.getD c.defaultTtlMs
  let c1 :=
    if decide (c.cache.length ≥ c.maxSize) && !mapHas c.cache key then
      c.evictOldest
    else c
  { c1 with
    cache := mapDelete c1.cache key ++
      [(key, { value := value, expiresAt := now + ttl, lastAccessed := now })] }

-- ============================================================================
-- Classification engine (classifier module)
-- ============================================================================

/-- Result record of `analyzeBehavior`. -/
structure BehaviorAnalysisResult where
  score : ℚ
  classification : Classification
  reason : String
  flags : List String
  deriving Repr

/-- String rendering of a device type, for the interpolated reason strings. -/
def deviceTypeName : DeviceType → String
  | .desktop => "desktop"
  | .mobile => "mobile"
  | .tablet => "tablet"
  | .bot => "bot"
  | .unknown => "unknown"

/-- `analyzeBehavior` from the classifier module: bot/unknown short-circuit to
score 0 and BAD; desktop is tiered on `mouseMovements` against the configured
40/20 thresholds; mobile and tablet are tiered on `touchEvents` against 7/3;
the final fallback is unreachable for the closed device-type set but kept as in
the source. -/
def analyzeBehavior (deviceType : DeviceType) (behavior : BehaviorData) :
    BehaviorAnalysisResult :=
  if deviceType = .bot ∨ deviceType = .unknown then
    { score := 0
      classification := .BAD
      reason := "Suspicious device type: " ++ deviceTypeName deviceType
      flags := ["suspicious_device_type"] }
  else if deviceType = .desktop then
    let thresholds := BEHAVIOR_THRESHOLDS.desktop
    let mouseMovements := behavior.mouseMovements
    if mouseMovements ≥ thresholds.mouseMovements.good then
      { score := 100
        classification := .GOOD
        reason := "Good desktop behavior: " ++ toString mouseMovements ++ " mouse movements"
        flags := ["good_mouse_behavior"] }
    else if mouseMovements ≥ thresholds.mouseMovements.warn then
      { score := 60
        classification := .WARN
        reason := "Low mouse movements: " ++ toString mouseMovements ++
          " (threshold: " ++ toString thresholds.mouseMovements.good ++ ")"
        flags := ["low_mouse_movements"] }
    else
      { score := 40
        classification := .WARN
        reason := "Very low mouse movements: " ++ toString mouseMovements
        flags := ["very_low_mouse_movements"] }
  else if deviceType = .mobile ∨ deviceType = .tablet then
    let thresholds := BEHAVIOR_THRESHOLDS.mobile
    let touchEvents := behavior.touchEvents
    if touchEvents ≥ thresholds.touchEvents.good then
      { score := 100
        classification := .GOOD
        reason := "Good mobile behavior: " ++ toString touchEvents ++ " touch events"
        flags := ["good_touch_behavior"] }
    else if touchEvents ≥ thresholds.touchEvents.warn then
      { score := 60
        classification := .WARN
        reason := "Low touch events: " ++ toString touchEvents ++
          " (threshold: " ++ toString thresholds.touchEvents.good ++ ")"
        flags := ["low_touch_events"] }
    else
      { score := 40
        classification := .WARN
        reason := "Very low touch events: " ++ toString touchEvents
        flags := ["very_low_touch_events"] }
  else
    { score := 50
      classification := .WARN
      reason := "Unknown behavior pattern"
      flags := ["unknown_behavior"] }

/-- `calculateIpScore` from the classifier module. -/
def calculateIpScore (ipReputation : IpReputationResult) : ℚ :=
  if ipReputation.isMobileCarrier then 95
  else if ipReputation.isVpn || ipReputation.isTor then 0
  else if ipReputation.isDatacenter then 10
  else if ipReputation.isProxy then 20
  else 80

/-- JS `Math.round`: round half toward positive infinity. -/
def jsRound (x : ℚ) : ℤ :=
  Int.floor (x + 1 / 2)

/-- `createResult` from the classifier module (`timestamp` and
`processingTime` are wall-clock metadata, not modelled). -/
def createResult (classification : Classification) (score : ℚ) (reason : String)
    (flags : List String) (ipReputation : Option IpReputationResult)
    (deviceType : Option DeviceType) : FraudResult :=
  { classification := classification
    score := score
    reason := reason
    details := { ipReputation := ipReputation, deviceType := deviceType, flags := flags } }

/-- `classify` from the classifier module. The three awaited external lookups
are passed as their results: `blacklisted`/`whitelisted` are the values of
`isBlacklisted(ip)`/`isWhitelisted(ip)`, and `ipReputation` is the value
`checkIpReputation(ip)` resolves to (it is only consulted when the cascade
reaches priority 5). The body is a literal transcription of the rule cascade:
each `if` returns immediately on match, and the mutation of
`behaviorResult.score` by the high-risk-browser penalty before the final score
and label are computed is modelled by `adjustedScore`. -/
def classify (blacklisted whitelisted : Bool) (ipReputation : IpReputationResult)
    (fingerprint : Fingerprint) (behavior : BehaviorData) : FraudResult :=
  let device := fingerprint.device
  if blacklisted then
    createResult .BAD 0 "IP is blacklisted" [] none none
  else if whitelisted then
    createResult .GOOD 100 "IP is whitelisted" [] none none
  else if device.isAutomated then
    createResult .BAD 0 "Automation detected (navigator.webdriver)"
      ["webdriver_detected"] none none
  else if device.isHeadless then
    createResult .BAD 0 "Headless browser detected" ["headless_browser"] none none
  else if device.isFakeMobile then
    createResult .BAD 0 "Fake mobile device detected (emulator)" ["fake_mobile"] none none
  else if ipReputation.isVpn then
    createResult .BAD 5 ("VPN detected: " ++ ipReputation.org)
      ["vpn_detected"] (some ipReputation) none
  else if ipReputation.isTor then
    createResult .BAD 0 "Tor exit node detected" ["tor_detected"] (some ipReputation) none
  else if ipReputation.isDatacenter then
    createResult .BAD 10 ("Datacenter/hosting IP: " ++ ipReputation.org)
      ["datacenter_ip"] (some ipReputation) none
  else if ipReputation.isMobileCarrier then
    createResult .GOOD 95 ("Mobile carrier: " ++ ipReputation.org)
      ["mobile_carrier"] (some ipReputation) none
  else
    let behaviorResult := analyzeBehavior device.type behavior
    let browserLower := toLowerStr device.browser
    let isHighRiskBrowser := HIGH_RISK_BROWSERS.any (fun b => strIncludes browserLower b)
    let flags :=
      if isHighRiskBrowser then behaviorResult.flags ++ ["high_risk_browser"]
      else behaviorResult.flags
    let adjustedScore :=
      if isHighRiskBrowser then max 0 (behaviorResult.score - 10)
      else behaviorResult.score
    let finalScore : ℚ :=
      (jsRound
        ((if ipReputation.isMobileCarrier then 60 else calculateIpScore ipReputation) *
            (SCORING_WEIGHTS.ipReputation / 100) +
          (if device.isFakeMobile || device.isAutomated then 0 else 80) *
            (SCORING_WEIGHTS.deviceFingerprint / 100) +
          adjustedScore * (SCORING_WEIGHTS.behavior / 100)) : ℤ)
    let classification :=
      if adjustedScore ≥ 80 then Classification.GOOD
      else if adjustedScore ≥ 40 then Classification.WARN
      else Classification.WARN
    createResult classification finalScore behaviorResult.reason flags
      (some ipReputation) (some device.type)

/-- Return record of `classifySync`. -/
structure SyncResult where
  classification : Classification
  reason : String
  deriving Repr

/-- `classifySync`, the synchronous testing helper from the classifier
module. -/
def classifySync (ipReputation : IpReputationResult) (fingerprint : Fingerprint)
    (behavior : BehaviorData) : SyncResult :=
  if fingerprint.device.isAutomated then
    { classification := .BAD, reason := "Automation detected" }
  else if fingerprint.device.isHeadless then
    { classification := .BAD, reason := "Headless browser" }
  else if fingerprint.device.isFakeMobile then
    { classification := .BAD, reason := "Fake mobile" }
  else if ipReputation.isVpn || ipReputation.isTor then
    { classification := .BAD, reason := "VPN/Tor detected" }
  else if ipReputation.isDatacenter then
    { classification := .BAD, reason := "Datacenter IP" }
  else if ipReputation.isMobileCarrier then
    { classification := .GOOD, reason := "Mobile carrier" }
  else
    let deviceType := fingerprint.device.type
    if deviceType = .desktop then
      if behavior.mouseMovements ≥ 40 then
        { classification := .GOOD, reason := "Good desktop behavior" }
      else
        { classification := .WARN, reason := "Low mouse movements" }
    else if deviceType = .mobile ∨ deviceType = .tablet then
      if behavior.touchEvents ≥ 7 then
        { classification := .GOOD, reason := "Good mobile behavior" }
      else
        { classification := .WARN, reason := "Low touch events" }
    else
      { classification := .WARN, reason := "Unknown pattern" }

-- ============================================================================
-- Concrete fixtures (mirroring the helpers of the unit-test module)
-- ============================================================================

/-- The desktop Chrome device of the test helper `createMockFingerprint`. -/
def mockDeviceInfo : DeviceInfo :=
  { type := .desktop, isMobile := false, isTablet := false, isDesktop := true,
    isFakeMobile := false, isAutomated := false, isHeadless := false,
    os := "Windows", osVersion := "10", browser := "Chrome", browserVersion := "120",
    platform := "Win32" }

/-- Screen block of the mock fingerprint. -/
def mockScreen : ScreenInfo :=
  { width := 1920, height := 1080, availWidth := 1920, availHeight := 1040,
    colorDepth := 24, pixelRatio := 1 }

/-- Hardware block of the mock fingerprint. -/
def mockHardware : HardwareInfo :=
  { cores := 8, memory := some 8, maxTouchPoints := 0, hasTouch := false }

/-- The clean desktop fingerprint of the unit-test helper. -/
def mockFingerprint : Fingerprint :=
  { device := mockDeviceInfo, screen := mockScreen, hardware := mockHardware,
    userAgent := "Mozilla/5.0", language := "en-US", languages := ["en-US", "en"],
    timezone := "Asia/Kolkata", timezoneOffset := -330, canvasHash := "abc123",
    webglVendor := "Google Inc.", webglRenderer := "ANGLE", webglHash := "xyz789",
    plugins := [], mimeTypes := [], doNotTrack := none, cookiesEnabled := true,
    collectedAt := 0 }

/-- The neutral residential IP reputation of the unit-test helper. -/
def mockIpReputation : IpReputationResult :=
  { ip := "192.168.1.1", isVpn := false, isDatacenter := false,
    isMobileCarrier := false, isProxy := false, isTor := false,
    asn := some 12345, org := "Test ISP", isp := "Test ISP", country := "India",
    countryCode := "IN", region := "Maharashtra", city := "Mumbai",
    cached := false, cachedAt := none }

/-- Behavior data with the given mouse-movement and touch-event counts and all
other counters zero (the unit-test helper with overrides). -/
def mkBehavior (mouse touch : ℚ) : BehaviorData :=
  { mouseMovements := mouse, mouseClicks := 0, mouseDistance := 0,
    touchEvents := touch, touchTaps := 0, touchSwipes := 0,
    scrollEvents := 0, scrollDistance := 0, keyPresses := 0,
    activeTime := 0, totalTime := 3000, lastEventTime := 0,
    sessionId := "test-session", pageUrl := "https://example.com" }

/-- A mobile-carrier IP reputation (Reliance Jio, ASN 55836). -/
def carrierRep : IpReputationResult :=
  { mockIpReputation with
      isMobileCarrier := true
      asn := some 55836
      org := "Reliance Jio" }

/-- The mock fingerprint with `isAutomated` set. -/
def automatedFp : Fingerprint :=
  { mockFingerprint with device := { mockDeviceInfo with isAutomated := true } }

-- ============================================================================
-- Shared helper lemmas
-- ============================================================================

/-- The Behavior Analyzer only ever produces the scores 0, 40, 50, 60, 100. -/
theorem analyzeBehavior_score_cases (t : DeviceType) (b : BehaviorData) :
    (analyzeBehavior t b).score = 0 ∨ (analyzeBehavior t b).score = 40 ∨
    (analyzeBehavior t b).score = 50 ∨ (analyzeBehavior t b).score = 60 ∨
    (analyzeBehavior t b).score = 100 := by
  cases t <;> simp only [analyzeBehavior] <;> split_ifs <;> simp_all

-- ============================================================================
-- Claim theorems
-- ============================================================================

/-- Claim C5: the Behavior Analyzer returns, for desktop devices, score
100/GOOD when `mouseMovements` is at least 40, score 60/WARN when it is in
[20, 40), and score 40/WARN below 20; for mobile and tablet devices the same
tiers keyed on `touchEvents` with thresholds 7 and 3; and for bot or unknown
device types score 0 and classification BAD, bypassing the thresholds. -/
theorem analyzeBehavior_tier_thresholds (b : BehaviorData) :
    (b.mouseMovements ≥ 40 →
      (analyzeBehavior .desktop b).score = 100 ∧
      (analyzeBehavior .desktop b).classification = .GOOD) ∧
    (20 ≤ b.mouseMovements → b.mouseMovements < 40 →
      (analyzeBehavior .desktop b).score = 60 ∧
      (analyzeBehavior .desktop b).classification = .WARN) ∧
    (b.mouseMovements < 20 →
      (analyzeBehavior .desktop b).score = 40 ∧
      (analyzeBehavior .desktop b).classification = .WARN) ∧
    (b.touchEvents ≥ 7 →
      (analyzeBehavior .mobile b).score = 100 ∧
      (analyzeBehavior .mobile b).classification = .GOOD) ∧
    (3 ≤ b.touchEvents → b.touchEvents < 7 →
      (analyzeBehavior .mobile b).score = 60 ∧
      (analyzeBehavior .mobile b).classification = .WARN) ∧
    (b.touchEvents < 3 →
      (analyzeBehavior .mobile b).score = 40 ∧
      (analyzeBehavior .mobile b).classification = .WARN) ∧
    (b.touchEvents ≥ 7 →
      (analyzeBehavior .tablet b).score = 100 ∧
      (analyzeBehavior .tablet b).classification = .GOOD) ∧
    (3 ≤ b.touchEvents → b.touchEvents < 7 →
      (analyzeBehavior .tablet b).score = 60 ∧
      (analyzeBehavior .tablet b).classification = .WARN) ∧
    (b.touchEvents < 3 →
      (analyzeBehavior .tablet b).score = 40 ∧
      (analyzeBehavior .tablet b).classification = .WARN) ∧
    ((analyzeBehavior .bot b).score = 0 ∧
      (analyzeBehavior .bot b).classification = .BAD) ∧
    ((analyzeBehavior .unknown b).score = 0 ∧
      (analyzeBehavior .unknown b).classification = .BAD) := by
  refine ⟨fun h => ?_, fun h1 h2 => ?_, fun h => ?_, fun h => ?_, fun h1 h2 => ?_,
    fun h => ?_, fun h => ?_, fun h1 h2 => ?_, fun h => ?_, ?_, ?_⟩ <;>
    simp only [analyzeBehavior, BEHAVIOR_THRESHOLDS] <;>
    split_ifs <;> simp_all <;> linarith

/-- Witness for C5 at the boundary counts: 40 desktop mouse movements give
score 100 and GOOD, 39 give WARN, 0 gives WARN. -/
theorem analyzeBehavior_tier_thresholds_witness :
    ((analyzeBehavior .desktop (mkBehavior 40 0)).score = 100 ∧
      (analyzeBehavior .desktop (mkBehavior 40 0)).classification = .GOOD) ∧
    (analyzeBehavior .desktop (mkBehavior 39 0)).classification = .WARN ∧
    (analyzeBehavior .desktop (mkBehavior 0 0)).classification = .WARN :=
  ⟨(analyzeBehavior_tier_thresholds (mkBehavior 40 0)).1 (by norm_num [mkBehavior]),
   ((analyzeBehavior_tier_thresholds (mkBehavior 39 0)).2.1
      (by norm_num [mkBehavior]) (by norm_num [mkBehavior])).2,
   ((analyzeBehavior_tier_thresholds (mkBehavior 0 0)).2.2.1
      (by norm_num [mkBehavior])).2⟩

/-- Counterexample for C9: the desktop middle WARN tier attaches the flag
`low_mouse_movements`, not `low_movement` as the claim names it. -/
theorem analyzeBehavior_flag_names_counterexample :
    (analyzeBehavior .desktop (mkBehavior 20 0)).flags = ["low_mouse_movements"] ∧
    (analyzeBehavior .desktop (mkBehavior 20 0)).flags ≠ ["low_movement"] := by
  decide

/-- Claim C9 as amended: the diagnostic flags attached by the Behavior
Analyzer WARN tiers are named `low_mouse_movements` (desktop middle tier),
`very_low_mouse_movements` (desktop bottom tier), `low_touch_events` (touch
middle tier), and `very_low_touch_events` (touch bottom tier). -/
theorem analyzeBehavior_flag_names (b : BehaviorData) :
    (20 ≤ b.mouseMovements → b.mouseMovements < 40 →
      (analyzeBehavior .desktop b).flags = ["low_mouse_movements"]) ∧
    (b.mouseMovements < 20 →
      (analyzeBehavior .desktop b).flags = ["very_low_mouse_movements"]) ∧
    (3 ≤ b.touchEvents → b.touchEvents < 7 →
      (analyzeBehavior .mobile b).flags = ["low_touch_events"] ∧
      (analyzeBehavior .tablet b).flags = ["low_touch_events"]) ∧
    (b.touchEvents < 3 →
      (analyzeBehavior .mobile b).flags = ["very_low_touch_events"] ∧
      (analyzeBehavior .tablet b).flags = ["very_low_touch_events"]) := by
  refine ⟨fun h1 h2 => ?_, fun h => ?_, fun h1 h2 => ?_, fun h => ?_⟩ <;>
    simp only [analyzeBehavior, BEHAVIOR_THRESHOLDS] <;>
    split_ifs <;> simp_all <;> linarith

/-- Witness for the amended C9: 39 mouse movements on desktop attach exactly
the flag `low_mouse_movements`, and 1 touch event on mobile attaches exactly
`very_low_touch_events`. -/
theorem analyzeBehavior_flag_names_witness :
    (analyzeBehavior .desktop (mkBehavior 39 0)).flags = ["low_mouse_movements"] ∧
    (analyzeBehavior .mobile (mkBehavior 0 1)).flags = ["very_low_touch_events"] :=
  ⟨(analyzeBehavior_flag_names (mkBehavior 39 0)).1
      (by norm_num [mkBehavior]) (by norm_num [mkBehavior]),
   ((analyzeBehavior_flag_names (mkBehavior 0 1)).2.2.2
      (by norm_num [mkBehavior])).1⟩

/-- Claim C8: after any single `addToWhitelist(ip)` or `addToBlacklist(ip)`
call, from any prior state of the two manual lists, `isWhitelisted(ip)` and
`isBlacklisted(ip)` are never both true for that ip: adding to one list
removes the ip from the other at write time. -/
theorem manual_lists_mutually_exclusive (st : ManualLists) (ip : String) :
    (isWhitelisted (addToWhitelist st ip) ip &&
      isBlacklisted (addToWhitelist st ip) ip) = false ∧
    (isWhitelisted (addToBlacklist st ip) ip &&
      isBlacklisted (addToBlacklist st ip) ip) = false := by
  constructor <;>
    simp [isWhitelisted, isBlacklisted, addToWhitelist, addToBlacklist,
      setAdd, setDelete]

/-- Claim C1: the rule cascade is evaluated in the fixed priority order with
short-circuiting — for each rule, whenever all higher-priority rules fail and
the rule matches, the returned result is fully determined (for every value of
all lower-priority signals, which remain universally quantified here). In
particular any input with `isAutomated` true whose IP is on neither manual
list is BAD with score 0 for every reputation (mobile carrier included) and
every behavior record. -/
theorem classify_cascade_priority (bl wl : Bool) (rep : IpReputationResult)
    (fp : Fingerprint) (b : BehaviorData) :
    (bl = true → classify bl wl rep fp b =
      createResult .BAD 0 "IP is blacklisted" [] none none) ∧
    (bl = false → wl = true → classify bl wl rep fp b =
      createResult .GOOD 100 "IP is whitelisted" [] none none) ∧
    (bl = false → wl = false → fp.device.isAutomated = true →
      classify bl wl rep fp b =
        createResult .BAD 0 "Automation detected (navigator.webdriver)"
          ["webdriver_detected"] none none) ∧
    (bl = false → wl = false → fp.device.isAutomated = false →
      fp.device.isHeadless = true →
      classify bl wl rep fp b =
        createResult .BAD 0 "Headless browser detected" ["headless_browser"] none none) ∧
    (bl = false → wl = false → fp.device.isAutomated = false →
      fp.device.isHeadless = false → fp.device.isFakeMobile = true →
      classify bl wl rep fp b =
        createResult .BAD 0 "Fake mobile device detected (emulator)"
          ["fake_mobile"] none none) ∧
    (bl = false → wl = false → fp.device.isAutomated = false →
      fp.device.isHeadless = false → fp.device.isFakeMobile = false →
      rep.isVpn = true →
      classify bl wl rep fp b =
        createResult .BAD 5 ("VPN detected: " ++ rep.org)
          ["vpn_detected"] (some rep) none) ∧
    (bl = false → wl = false → fp.device.isAutomated = false →
      fp.device.isHeadless = false → fp.device.isFakeMobile = false →
      rep.isVpn = false → rep.isTor = true →
      classify bl wl rep fp b =
        createResult .BAD 0 "Tor exit node detected" ["tor_detected"] (some rep) none) ∧
    (bl = false → wl = false → fp.device.isAutomated = false →
      fp.device.isHeadless = false → fp.device.isFakeMobile = false →
      rep.isVpn = false → rep.isTor = false → rep.isDatacenter = true →
      classify bl wl rep fp b =
        createResult .BAD 10 ("Datacenter/hosting IP: " ++ rep.org)
          ["datacenter_ip"] (some rep) none) ∧
    (bl = false → wl = false → fp.device.isAutomated = false →
      fp.device.isHeadless = false → fp.device.isFakeMobile = false →
      rep.isVpn = false → rep.isTor = false → rep.isDatacenter = false →
      rep.isMobileCarrier = true →
      classify bl wl rep fp b =
        createResult .GOOD 95 ("Mobile carrier: " ++ rep.org)
          ["mobile_carrier"] (some rep) none) := by
  refine ⟨?_, ?_, ?_, ?_, ?_, ?_, ?_, ?_, ?_⟩ <;> intros <;> simp_all [classify]

/-- Witness for C1: an automated device with a mobile-carrier IP and rich
behavior, on neither manual list, is still BAD with score 0. -/
theorem classify_cascade_priority_witness :
    (classify false false carrierRep automatedFp (mkBehavior 100 50)).classification =
      Classification.BAD ∧
    (classify false false carrierRep automatedFp (mkBehavior 100 50)).score = 0 := by
  have h := (classify_cascade_priority false false carrierRep automatedFp
    (mkBehavior 100 50)).2.2.1 rfl rfl rfl
  rw [h]
  exact ⟨rfl, rfl⟩

/-- Claim C4: with a clean device, no manual-list hit and a reputation that is
only a mobile carrier, classify returns GOOD with score 95 and the result does
not depend on the behavior record at all (the Behavior Analyzer is never
consulted). -/
theorem classify_mobile_carrier_bypass (bl wl : Bool) (rep : IpReputationResult)
    (fp : Fingerprint) (b1 b2 : BehaviorData)
    (hbl : bl = false) (hwl : wl = false)
    (hA : fp.device.isAutomated = false) (hH : fp.device.isHeadless = false)
    (hF : fp.device.isFakeMobile = false)
    (hV : rep.isVpn = false) (hT : rep.isTor = false)
    (hD : rep.isDatacenter = false) (hM : rep.isMobileCarrier = true) :
    classify bl wl rep fp b1 = classify bl wl rep fp b2 ∧
    (classify bl wl rep fp b1).classification = Classification.GOOD ∧
    (classify bl wl rep fp b1).score = 95 := by
  subst hbl hwl
  simp [classify, createResult, hA, hH, hF, hV, hT, hD, hM]

/-- Witness for C4: a carrier IP with every behavior counter zero is GOOD 95,
and equals the result obtained with rich behavior. -/
theorem classify_mobile_carrier_bypass_witness :
    classify false false carrierRep mockFingerprint (mkBehavior 0 0) =
      classify false false carrierRep mockFingerprint (mkBehavior 100 50) ∧
    (classify false false carrierRep mockFingerprint (mkBehavior 0 0)).classification =
      Classification.GOOD ∧
    (classify false false carrierRep mockFingerprint (mkBehavior 0 0)).score = 95 :=
  classify_mobile_carrier_bypass false false carrierRep mockFingerprint
    (mkBehavior 0 0) (mkBehavior 100 50) rfl rfl rfl rfl rfl rfl rfl rfl rfl

/-- When the cascade reaches rule 10 (no earlier rule matched), the label is
GOOD exactly when the Behavior Analyzer score (before the high-risk-browser
penalty) is at least 80, and WARN otherwise. The code compares the adjusted
score against 80, but the analyzer only produces scores 0/40/50/60/100, so the
flat 10-point penalty cannot move a score across the 80 boundary. -/
theorem classify_rule10_label_eq (bl wl : Bool) (rep : IpReputationResult)
    (fp : Fingerprint) (b : BehaviorData)
    (hbl : bl = false) (hwl : wl = false)
    (hA : fp.device.isAutomated = false) (hH : fp.device.isHeadless = false)
    (hF : fp.device.isFakeMobile = false)
    (hV : rep.isVpn = false) (hT : rep.isTor = false)
    (hD : rep.isDatacenter = false) (hM : rep.isMobileCarrier = false) :
    (classify bl wl rep fp b).classification =
      (if (analyzeBehavior fp.device.type b).score ≥ 80 then Classification.GOOD
       else Classification.WARN) := by
  subst hbl hwl
  rcases analyzeBehavior_score_cases fp.device.type b with h | h | h | h | h <;>
    by_cases hrb : (HIGH_RISK_BROWSERS.any fun kw =>
      strIncludes (toLowerStr fp.device.browser) kw) = true <;>
    simp [classify, createResult, hA, hH, hF, hV, hT, hD, hM, hrb, h] <;>
    norm_num [max_def]

/-- Claim C2: for every input that reaches rule 10, the classification is GOOD
if the Behavior Analyzer score for the device type is at least 80 and WARN
otherwise, and never BAD; in particular the high-risk-browser penalty, applied
to the behavior score before the label is computed, never changes which of
GOOD/WARN is returned. -/
theorem classify_rule10_label_from_behavior (bl wl : Bool)
    (rep : IpReputationResult) (fp : Fingerprint) (b : BehaviorData)
    (hbl : bl = false) (hwl : wl = false)
    (hA : fp.device.isAutomated = false) (hH : fp.device.isHeadless = false)
    (hF : fp.device.isFakeMobile = false)
    (hV : rep.isVpn = false) (hT : rep.isTor = false)
    (hD : rep.isDatacenter = false) (hM : rep.isMobileCarrier = false) :
    ((analyzeBehavior fp.device.type b).score ≥ 80 →
      (classify bl wl rep fp b).classification = Classification.GOOD) ∧
    ((analyzeBehavior fp.device.type b).score < 80 →
      (classify bl wl rep fp b).classification = Classification.WARN) ∧
    (classify bl wl rep fp b).classification ≠ Classification.BAD := by
  have h := classify_rule10_label_eq bl wl rep fp b hbl hwl hA hH hF hV hT hD hM
  refine ⟨fun hge => ?_, fun hlt => ?_, ?_⟩
  · rw [h, if_pos hge]
  · rw [h, if_neg (not_le.mpr hlt)]
  · rw [h]; split_ifs <;> simp

/-- Witness for C2: a residential desktop input with 45 mouse movements (and a
high-risk-browser-free UA) reaches rule 10 with behavior score 100 and is
classified GOOD. -/
theorem classify_rule10_label_from_behavior_witness :
    (classify false false mockIpReputation mockFingerprint
      (mkBehavior 45 0)).classification = Classification.GOOD :=
  (classify_rule10_label_from_behavior false false mockIpReputation
    mockFingerprint (mkBehavior 45 0) rfl rfl rfl rfl rfl rfl rfl rfl rfl).1
    (by decide)

/-- The rule-10 ip component as the spec of claim C3 words it: 95 for carrier
IPs, 0 for VPN or Tor, 10 for datacenter, 20 for proxy, and 80 otherwise.
Spec-side definition, to be compared with the code path of `classify`. -/
def specIpComponent (rep : IpReputationResult) : ℚ :=
  if rep.isMobileCarrier then 95
  else if rep.isVpn || rep.isTor then 0
  else if rep.isDatacenter then 10
  else if rep.isProxy then 20
  else 80

/-- The rule-10 device component as the spec of claim C3 words it: 0 if
`isFakeMobile` or `isAutomated` is set, else 80. Spec-side definition. -/
def specDeviceComponent (device : DeviceInfo) : ℚ :=
  if device.isFakeMobile || device.isAutomated then 0 else 80

/-- The rule-10 behavior component as the spec of claim C3 words it: the
Behavior Analyzer score after the flat 10-point high-risk-browser subtraction
(floored at 0). Spec-side definition. -/
def specBehaviorComponent (fp : Fingerprint) (b : BehaviorData) : ℚ :=
  let s := (analyzeBehavior fp.device.type b).score
  if HIGH_RISK_BROWSERS.any (fun kw => strIncludes (toLowerStr fp.device.browser) kw) then
    max 0 (s - 10)
  else s

/-- Claim C3: for every input that reaches rule 10, the reported score equals
round(ipComponent × 0.6 + deviceComponent × 0.3 + behaviorComponent × 0.1)
with the components as the spec states them. -/
theorem classify_rule10_score_formula (bl wl : Bool)
    (rep : IpReputationResult) (fp : Fingerprint) (b : BehaviorData)
    (hbl : bl = false) (hwl : wl = false)
    (hA : fp.device.isAutomated = false) (hH : fp.device.isHeadless = false)
    (hF : fp.device.isFakeMobile = false)
    (hV : rep.isVpn = false) (hT : rep.isTor = false)
    (hD : rep.isDatacenter = false) (hM : rep.isMobileCarrier = false) :
    (classify bl wl rep fp b).score =
      ((jsRound (specIpComponent rep * (0.6 : ℚ) +
        specDeviceComponent fp.device * (0.3 : ℚ) +
        specBehaviorComponent fp b * (0.1 : ℚ)) : ℤ) : ℚ) := by
  subst hbl hwl
  by_cases hP : rep.isProxy = true <;>
    by_cases hrb : (HIGH_RISK_BROWSERS.any fun kw =>
      strIncludes (toLowerStr fp.device.browser) kw) = true <;>
    simp [classify, createResult, calculateIpScore, SCORING_WEIGHTS, jsRound,
      specIpComponent, specDeviceComponent, specBehaviorComponent,
      hA, hH, hF, hV, hT, hD, hM, hP, hrb] <;>
    norm_num

/-- Witness for C3: the rule-10 score equation instantiated at a residential
desktop input with 45 mouse movements. -/
theorem classify_rule10_score_formula_witness :
    (classify false false mockIpReputation mockFingerprint
      (mkBehavior 45 0)).score =
      ((jsRound (specIpComponent mockIpReputation * (0.6 : ℚ) +
        specDeviceComponent mockFingerprint.device * (0.3 : ℚ) +
        specBehaviorComponent mockFingerprint (mkBehavior 45 0) * (0.1 : ℚ)) : ℤ) : ℚ) :=
  classify_rule10_score_formula false false mockIpReputation mockFingerprint
    (mkBehavior 45 0) rfl rfl rfl rfl rfl rfl rfl rfl rfl

/-- Claim C10: for every input whose IP is on neither manual list, the
classification label returned by `classify` equals the label returned by the
synchronous testing helper `classifySync` on the same resolved reputation —
including for bot/unknown device types and for high-risk browsers. -/
theorem classify_refines_classifySync (bl wl : Bool) (rep : IpReputationResult)
    (fp : Fingerprint) (b : BehaviorData)
    (hbl : bl = false) (hwl : wl = false) :
    (classify bl wl rep fp b).classification =
      (classifySync rep fp b).classification := by
  subst hbl hwl
  cases hA : fp.device.isAutomated with
  | true => simp [classify, classifySync, createResult, hA]
  | false =>
  cases hH : fp.device.isHeadless with
  | true => simp [classify, classifySync, createResult, hA, hH]
  | false =>
  cases hF : fp.device.isFakeMobile with
  | true => simp [classify, classifySync, createResult, hA, hH, hF]
  | false =>
  cases hV : rep.isVpn with
  | true => simp [classify, classifySync, createResult, hA, hH, hF, hV]
  | false =>
  cases hT : rep.isTor with
  | true => simp [classify, classifySync, createResult, hA, hH, hF, hV, hT]
  | false =>
  cases hD : rep.isDatacenter with
  | true => simp [classify, classifySync, createResult, hA, hH, hF, hV, hT, hD]
  | false =>
  cases hM : rep.isMobileCarrier with
  | true => simp [classify, classifySync, createResult, hA, hH, hF, hV, hT, hD, hM]
  | false =>
  rw [classify_rule10_label_eq false false rep fp b rfl rfl hA hH hF hV hT hD hM]
  cases ht : fp.device.type <;>
    simp [classifySync, analyzeBehavior, BEHAVIOR_THRESHOLDS,
      hA, hH, hF, hV, hT, hD, hM, ht] <;>
    split_ifs <;> first | rfl | norm_num at *

/-- Witness for C10: the two classifiers agree at a concrete residential
desktop input with zero behavior counters. -/
theorem classify_refines_classifySync_witness :
    (classify false false mockIpReputation mockFingerprint
      (mkBehavior 0 0)).classification =
      (classifySync mockIpReputation mockFingerprint
        (mkBehavior 0 0)).classification :=
  classify_refines_classifySync false false mockIpReputation mockFingerprint
    (mkBehavior 0 0) rfl rfl

/-- Claim C6: `checkIpReputation` never throws (it is total by construction:
the try/catch absorbs every fetch error), and on an invalid IP, or on a cache
miss whose external lookup fails (timeout, non-2xx status, unparsable body,
or an error body — exactly the cases where `fetchIpReputation` throws), it
returns the neutral unknown result: all boolean facets false, null asn, and
empty org/isp/location strings. -/
theorem checkIpReputation_failure_neutral (ip : String)
    (cachedEntry : Option IpReputationResult) (outcome : FetchOutcome)
    (h : isValidIp ip = false ∨
      (cachedEntry = none ∧ ∃ e, fetchIpReputation outcome = .error e)) :
    checkIpReputation ip cachedEntry outcome = createUnknownResult ip ∧
    (checkIpReputation ip cachedEntry outcome).isVpn = false ∧
    (checkIpReputation ip cachedEntry outcome).isDatacenter = false ∧
    (checkIpReputation ip cachedEntry outcome).isMobileCarrier = false ∧
    (checkIpReputation ip cachedEntry outcome).isProxy = false ∧
    (checkIpReputation ip cachedEntry outcome).isTor = false ∧
    (checkIpReputation ip cachedEntry outcome).asn = none ∧
    (checkIpReputation ip cachedEntry outcome).org = "" ∧
    (checkIpReputation ip cachedEntry outcome).isp = "" ∧
    (checkIpReputation ip cachedEntry outcome).country = "" ∧
    (checkIpReputation ip cachedEntry outcome).countryCode = "" ∧
    (checkIpReputation ip cachedEntry outcome).region = "" ∧
    (checkIpReputation ip cachedEntry outcome).city = "" := by
  have hmain : checkIpReputation ip cachedEntry outcome = createUnknownResult ip := by
    rcases h with hv | ⟨hc, e, he⟩
    · simp [checkIpReputation, hv]
    · by_cases hv2 : isValidIp ip
      · simp [checkIpReputation, hv2, hc, he]
      · simp [checkIpReputation, hv2]
  rw [hmain]
  exact ⟨rfl, rfl, rfl, rfl, rfl, rfl, rfl, rfl, rfl, rfl, rfl, rfl, rfl⟩

/-- Witness for C6: a well-formed IPv4 address whose uncached lookup times out
resolves to the neutral unknown result. -/
theorem checkIpReputation_failure_neutral_witness :
    checkIpReputation "1.2.3.4" none FetchOutcome.timeout =
      createUnknownResult "1.2.3.4" ∧
    (checkIpReputation "1.2.3.4" none FetchOutcome.timeout).isVpn = false ∧
    (checkIpReputation "1.2.3.4" none FetchOutcome.timeout).isDatacenter = false ∧
    (checkIpReputation "1.2.3.4" none FetchOutcome.timeout).isMobileCarrier = false ∧
    (checkIpReputation "1.2.3.4" none FetchOutcome.timeout).isProxy = false ∧
    (checkIpReputation "1.2.3.4" none FetchOutcome.timeout).isTor = false ∧
    (checkIpReputation "1.2.3.4" none FetchOutcome.timeout).asn = none ∧
    (checkIpReputation "1.2.3.4" none FetchOutcome.timeout).org = "" ∧
    (checkIpReputation "1.2.3.4" none FetchOutcome.timeout).isp = "" ∧
    (checkIpReputation "1.2.3.4" none FetchOutcome.timeout).country = "" ∧
    (checkIpReputation "1.2.3.4" none FetchOutcome.timeout).countryCode = "" ∧
    (checkIpReputation "1.2.3.4" none FetchOutcome.timeout).region = "" ∧
    (checkIpReputation "1.2.3.4" none FetchOutcome.timeout).city = "" :=
  checkIpReputation_failure_neutral "1.2.3.4" none FetchOutcome.timeout
    (Or.inr ⟨rfl, ⟨"AbortError", rfl⟩⟩)

/-- Claim C7 evaluated at its failing input: with `maxSize = 2`, inserting the
three distinct keys `""`, `"a"`, `"b"` leaves the cache with 3 entries —
`set` on the full cache fails to evict because `evictOldest` treats the
falsy empty-string oldest key like an empty map and skips the deletion. -/
theorem lruCache_emptyKey_set_exceeds_maxSize :
    ((((LRUCache.mkCache ℕ 2 1000).set "" 1 none 0).set "a" 2 none 0).set
        "b" 3 none 0).cache.length = 3 ∧
    ((((LRUCache.mkCache ℕ 2 1000).set "" 1 none 0).set "a" 2 none 0).set
        "b" 3 none 0).maxSize = 2 := by
  decide

end Knnura
